import Mathlib

/-!
Verification of the safe atomic file replacement subsystem (QSaveFile,
src/corelib/io/qsavefile.cpp) against its specification.

The subsystem is shallowly embedded: the session state carried by
QSaveFilePrivate together with the device-level open/error state becomes the
`SaveFile` structure; the on-disk artifacts the session can touch (the
destination file and the uniquely named staging file) become the `FS`
structure; the external collaborators (the underlying file engine, the
QFileInfo probe and the platform predicate) are modelled as explicit oracle
inputs, since their code is outside this subsystem.  Each public operation of
qsavefile.cpp is translated into a pure function on these structures,
following the source control flow line by line.
-/

namespace QSaveFile

/-- Error kinds of the underlying file device (QFileDevice::FileError). -/
inductive FileError where
  | NoError
  | ReadError
  | WriteError
  | FatalError
  | ResourceError
  | OpenError
  | AbortError
  | TimeOutError
  | UnspecifiedError
  | RemoveError
  | RenameError
  | PositionError
  | ResizeError
  | PermissionsError
  | CopyError
deriving DecidableEq, Repr

/-- QIODevice::ReadOnly open-mode flag bit. -/
def ReadOnly : Nat := 1

/-- QIODevice::WriteOnly open-mode flag bit. -/
def WriteOnly : Nat := 2

/-- QIODevice::Append open-mode flag bit. -/
def Append : Nat := 4

/-- QIODevice::NewOnly open-mode flag bit. -/
def NewOnly : Nat := 64

/-- QIODevice::ExistingOnly open-mode flag bit. -/
def ExistingOnly : Nat := 128

/-- A file on disk: its byte content and its permission bits. -/
structure FileData where
  content : List Nat
  perms : Nat
deriving DecidableEq, Repr

/-- The slice of the filesystem a save session can touch: the destination
file (at the resolved target path) and the uniquely named staging file. -/
structure FS where
  dest : Option FileData
  staging : Option FileData
deriving DecidableEq, Repr

/-- The session state: the fields of QSaveFilePrivate (fileName,
finalFileName, writeError, useTemporaryFile, directWriteFallback, the
presence of fileEngine) together with the device-level state consumed from
QFileDevice (isOpen, the error kind `error` and its errorString). -/
structure SaveFile where
  fileName : String
  finalFileName : String
  writeError : FileError
  useTemporaryFile : Bool
  directWriteFallback : Bool
  hasEngine : Bool
  isOpen : Bool
  error : FileError
  errorString : String
deriving DecidableEq, Repr

/-- QFileDevicePrivate::setError: record an error kind and message. -/
def setError (s : SaveFile) (e : FileError) (msg : String) : SaveFile :=
  { s with error := e, errorString := msg }

/-- QFileDevice::unsetError: clear the recorded error. -/
def unsetError (s : SaveFile) : SaveFile :=
  { s with error := .NoError, errorString := "" }

/-- QSaveFile::setFileName (qsavefile.cpp line 140). -/
def setFileName (s : SaveFile) (name : String) : SaveFile :=
  { s with fileName := name }

/-- QSaveFile::setDirectWriteFallback (qsavefile.cpp line 391). -/
def setDirectWriteFallback (s : SaveFile) (enabled : Bool) : SaveFile :=
  { s with directWriteFallback := enabled }

/-- The symlink structure of the filesystem, as queried through QFileInfo:
which paths are symlinks, what each symlink points to, and which paths
exist.  `α` is the path type (String for the real program; the lemmas and
counterexamples also instantiate it with Nat for readability). -/
structure LinkEnv (α : Type) where
  isSymLink : α → Bool
  target : α → α
  fexists : α → Bool

/-- The symlink-following loop of QSaveFile::open (qsavefile.cpp lines
195-197): `int maxDepth = 128; while (--maxDepth && isSymLink) follow;`.
The first argument is the value of maxDepth before the `--maxDepth` test,
so the loop body can run only while the decremented counter is nonzero; the
result is the final value of maxDepth paired with the final path. -/
def resolveLoop {α : Type} (env : LinkEnv α) : Nat → α → Nat × α
  | 0, f => (0, f)
  | 1, f => (0, f)
  | d + 2, f =>
    if env.isSymLink f then resolveLoop env (d + 1) (env.target f)
    else (d + 1, f)

/-- Path resolution in QSaveFile::open (qsavefile.cpp lines 193-200):
finalFileName starts as fileName; if the path is a symlink the chain is
followed by `resolveLoop` starting from maxDepth = 128, and the resolved
path is kept only when the loop exited with maxDepth still positive. -/
def resolvePath {α : Type} (env : LinkEnv α) (fileName : α) : α :=
  if env.isSymLink fileName then
    match resolveLoop env 128 fileName with
    | (maxDepth, f) => if 0 < maxDepth then f else fileName
  else fileName

/-- The QFileInfo probe of the target path performed by QSaveFile::open
(`QFileInfo existingFile(d->fileName)`): existence, writability,
directory-ness and permission bits of any existing destination file. -/
structure DestInfo where
  fexists : Bool
  isWritable : Bool
  isDir : Bool
  perms : Nat
deriving DecidableEq, Repr

/-- The external inputs of QSaveFile::open: the symlink structure, the
platform predicate for paths that cannot be renamed onto (the Q_OS_WIN
alternate-data-stream check / Q_OS_ANDROID content-URL check, lines
212-219), and the outcomes of the two engine `open` calls this subsystem
can make (the temporary-file engine and the direct engine), including
whether a failed temporary open was a POSIX EACCES. -/
structure OpenEnv where
  link : LinkEnv String
  requiresDirectWrite : Bool
  tempOpenOk : Bool
  tempErr : FileError
  tempErrStr : String
  eacces : Bool
  directOpenOk : Bool
  directErr : FileError
  directErrStr : String

/-- The staging file as created by QTemporaryFileEngine at open time
(qsavefile.cpp lines 236-241): empty, with mode 0600 when a destination
file already exists and 0666 (before umask) when none does. -/
def stagingCreate (destExists : Bool) : FileData :=
  { content := [], perms := if destExists then 0o600 else 0o666 }

/-- Effect on the filesystem of `openDirectly` succeeding (qsavefile.cpp
lines 202-210): the destination itself is opened WriteOnly by the engine,
which truncates it (creating it with default permissions if absent). -/
def directOpenFS (fs : FS) : FS :=
  { fs with dest := some { content := [], perms := (fs.dest.map FileData.perms).getD 0o666 } }

/-- QSaveFile::open (qsavefile.cpp lines 157-264), translated branch by
branch: the already-open guard; unsetError and the writeError reset; the
two open-mode checks; the fail-fast writability and directory probes; the
symlink resolution into finalFileName; the requiresDirectWrite branch with
its optional direct fallback; and the temporary-file branch that creates
the staging file, with the Q_OS_UNIX EACCES direct fallback on failure and
the permission mirroring onto the staging file on success.  Returns the
boolean result together with the new session state and filesystem. -/
def openSave (s : SaveFile) (fs : FS) (mode : Nat) (info : DestInfo) (env : OpenEnv) :
    Bool × SaveFile × FS :=
  if s.isOpen then (false, s, fs)
  else
    let s1 := { unsetError s with writeError := .NoError }
    if mode &&& (ReadOnly ||| WriteOnly) = 0 then (false, s1, fs)
    else if mode &&& (ReadOnly ||| Append ||| NewOnly ||| ExistingOnly) ≠ 0 then (false, s1, fs)
    else if info.fexists && !info.isWritable then
      let s2 := setError s1 .WriteError ("Existing file " ++ s1.fileName ++ " is not writable")
      (false, { s2 with writeError := .WriteError }, fs)
    else if info.isDir then
      let s2 := setError s1 .WriteError ("Filename refers to a directory")
      (false, { s2 with writeError := .WriteError }, fs)
    else
      let s2 := { s1 with finalFileName := resolvePath env.link s1.fileName }
      if env.requiresDirectWrite then
        if s2.directWriteFallback then
          if env.directOpenOk then
            (true, { s2 with hasEngine := true, useTemporaryFile := false, isOpen := true },
              directOpenFS fs)
          else
            (false, { setError s2 env.directErr env.directErrStr with hasEngine := false }, fs)
        else
          (false, setError s2 .OpenError
            ("QSaveFile cannot open " ++ s2.fileName ++ " without direct write fallback enabled."),
            fs)
      else
        if env.tempOpenOk then
          let s3 := { s2 with hasEngine := true, useTemporaryFile := true, isOpen := true }
          if info.fexists then
            (true, s3, { fs with staging := some { content := [], perms := info.perms } })
          else
            (true, s3, { fs with staging := some (stagingCreate info.fexists) })
        else
          if s2.directWriteFallback ∧ env.tempErr = .OpenError ∧ env.eacces then
            if env.directOpenOk then
              (true, { s2 with hasEngine := true, useTemporaryFile := false, isOpen := true },
                directOpenFS fs)
            else
              let e := if env.directErr = .UnspecifiedError then FileError.OpenError
                       else env.directErr
              (false, { setError s2 e env.directErrStr with hasEngine := false }, fs)
          else
            let e := if env.tempErr = .UnspecifiedError then FileError.OpenError else env.tempErr
            (false, { setError s2 e env.tempErrStr with hasEngine := false }, fs)

/-- Result of the underlying QFileDevice::writeData call (external
collaborator): either all bytes written, or a failure that records an error
kind and message on the device. -/
inductive UWrite where
  | ok (written : List Nat)
  | fail (e : FileError) (msg : String)
deriving DecidableEq, Repr

/-- Append bytes to the file the session handle points at: the staging file
in staging mode, the destination itself in direct-write mode. -/
def appendHandle (s : SaveFile) (fs : FS) (w : List Nat) : FS :=
  if s.useTemporaryFile then
    { fs with staging := fs.staging.map (fun f => { f with content := f.content ++ w }) }
  else
    { fs with dest := fs.dest.map (fun f => { f with content := f.content ++ w }) }

/-- QSaveFile::writeData (qsavefile.cpp lines 354-365): if writeError is
already set, return -1 without touching anything; otherwise delegate to the
underlying device write and latch any device error into writeError. -/
def writeData (s : SaveFile) (fs : FS) (u : UWrite) : Int × SaveFile × FS :=
  if s.writeError ≠ .NoError then (-1, s, fs)
  else
    match u with
    | .ok w =>
      let s1 := if s.error ≠ .NoError then { s with writeError := s.error } else s
      ((w.length : Int), s1, appendHandle s fs w)
    | .fail e msg =>
      let s1 := setError s e msg
      let s2 := if s1.error ≠ .NoError then { s1 with writeError := s1.error } else s1
      (-1, s2, fs)

/-- Outcome of the engine renameOverwrite call made by commit (external
collaborator): whether the atomic overwrite-rename succeeded, and the
engine's error kind and message when it did not. -/
structure CommitEnv where
  renameOk : Bool
  renameErr : FileError
  renameErrStr : String
deriving DecidableEq, Repr

/-- QSaveFile::commit (qsavefile.cpp lines 289-322): the missing-engine and
not-open guards; the device close (which flushes and ends the open state)
and the move out of the engine; the best-effort sync (ignored); then, in
staging mode, either the discard of the staging file when writeError is
set (also resetting writeError), or the atomic overwrite-rename, deleting
the staging file and capturing the engine error on rename failure; in
direct-write mode, plain success. -/
def commit (s : SaveFile) (fs : FS) (c : CommitEnv) : Bool × SaveFile × FS :=
  if !s.hasEngine then (false, s, fs)
  else if !s.isOpen then (false, s, fs)
  else
    let s1 := { s with isOpen := false, hasEngine := false }
    if s1.useTemporaryFile then
      if s1.writeError ≠ .NoError then
        (false, { s1 with writeError := .NoError }, { fs with staging := none })
      else if c.renameOk then
        (true, s1, { fs with dest := fs.staging, staging := none })
      else
        (false, setError s1 c.renameErr c.renameErrStr, { fs with staging := none })
    else
      (true, s1, fs)

/-- QSaveFile::cancelWriting (qsavefile.cpp lines 342-349): a no-op when
not open, otherwise records the fixed cancellation error and latches it. -/
def cancelWriting (s : SaveFile) : SaveFile :=
  if !s.isOpen then s
  else { setError s .WriteError ("Writing canceled by application") with writeError := .WriteError }

/-- Result type for QSaveFile::close: the call either aborts the program
(qFatal) or would return a continuing session state. -/
inductive CloseResult where
  | fatal (msg : String)
  | closed (s : SaveFile)
deriving DecidableEq, Repr

/-- QSaveFile::close (qsavefile.cpp lines 272-275): unconditionally
`qFatal("QSaveFile::close called")`. -/
def close (_ : SaveFile) : CloseResult :=
  .fatal ("QSaveFile::close called")

/-- A session freshly opened in staging mode, no error yet. -/
def exOpenStaging : SaveFile :=
  { fileName := "doc.txt", finalFileName := "doc.txt", writeError := .NoError,
    useTemporaryFile := true, directWriteFallback := false, hasEngine := true,
    isOpen := true, error := .NoError, errorString := "" }

/-- An open staging session whose write error has been latched. -/
def exLatched : SaveFile :=
  { exOpenStaging with
    writeError := .WriteError, error := .WriteError, errorString := "No space left on device" }

/-- An open session in direct-write mode (no staging file). -/
def exDirectOpen : SaveFile :=
  { exOpenStaging with useTemporaryFile := false, directWriteFallback := true }

/-- A session that has not been opened. -/
def exClosed : SaveFile :=
  { fileName := "doc.txt", finalFileName := "", writeError := .NoError,
    useTemporaryFile := true, directWriteFallback := false, hasEngine := false,
    isOpen := false, error := .NoError, errorString := "" }

/-- A filesystem with an existing destination and a staging file holding
partially written data. -/
def exFS : FS :=
  { dest := some { content := [1, 2], perms := 0o644 },
    staging := some { content := [3], perms := 0o600 } }

/-- A filesystem with no destination and no staging file. -/
def exFSEmpty : FS :=
  { dest := none, staging := none }

/-- A rename oracle that would let the overwrite-rename succeed. -/
def exCommitOk : CommitEnv :=
  { renameOk := true, renameErr := .NoError, renameErrStr := "" }

/-- A rename oracle where the overwrite-rename fails. -/
def exCommitFail : CommitEnv :=
  { renameOk := false, renameErr := .RenameError, renameErrStr := "Permission denied" }

/-- A symlink-free filesystem view of string paths. -/
def exLink : LinkEnv String :=
  { isSymLink := fun _ => false, target := fun p => p, fexists := fun _ => true }

/-- Open oracles for the ordinary case: not a direct-write-only path, the
temporary file engine opens fine. -/
def exOpenEnv : OpenEnv :=
  { link := exLink, requiresDirectWrite := false, tempOpenOk := true,
    tempErr := .NoError, tempErrStr := "", eacces := false,
    directOpenOk := true, directErr := .NoError, directErrStr := "" }

/-- Probe result: no destination file exists yet. -/
def exInfoNew : DestInfo :=
  { fexists := false, isWritable := false, isDir := false, perms := 0 }

/-- Probe result: a writable destination file with permission bits 0640. -/
def exInfoExisting : DestInfo :=
  { fexists := true, isWritable := true, isDir := false, perms := 0o640 }

/-- Probe result: the target path is a writable directory. -/
def exInfoDir : DestInfo :=
  { fexists := true, isWritable := true, isDir := true, perms := 0o755 }

/-- Probe result: the target path exists but is not writable. -/
def exInfoReadOnlyFile : DestInfo :=
  { fexists := true, isWritable := false, isDir := false, perms := 0o444 }

/-- A symlink chain of exactly 127 hops over Nat paths: path k links to
path k + 1 for k < 127, and path 127 is a regular file. -/
def chainEnv : LinkEnv Nat :=
  { isSymLink := fun k => decide (k < 127), target := fun k => k + 1,
    fexists := fun _ => true }

/-- A short symlink chain over Nat paths: 0 → 1 → 2, where path 2 is a
regular file; paths from 3 on do not exist. -/
def shortChainEnv : LinkEnv Nat :=
  { isSymLink := fun k => decide (k < 2), target := fun k => k + 1,
    fexists := fun k => decide (k < 3) }

/-- One unfolding of the symlink loop while the decremented counter is
still nonzero. -/
theorem resolveLoop_step {α : Type} (env : LinkEnv α) (d : Nat) (x : α) :
    resolveLoop env (d + 2) x =
      if env.isSymLink x then resolveLoop env (d + 1) (env.target x) else (d + 1, x) := rfl

/-- On a symlink chain of n hops with n ≤ d, the loop entered with counter
d + 2 reaches the chain's final target with counter value d + 1 - n. -/
theorem resolveLoop_chain_le {α : Type} (env : LinkEnv α) :
    ∀ (n : Nat) (f : Nat → α) (d : Nat),
      (∀ i, i < n → env.isSymLink (f i) = true ∧ env.target (f i) = f (i + 1)) →
      env.isSymLink (f n) = false → n ≤ d →
      resolveLoop env (d + 2) (f 0) = (d + 1 - n, f n) := by
  intro n
  induction n with
  | zero =>
    intro f d _ hstop _
    rw [resolveLoop_step, if_neg (by simp [hstop])]
    simp
  | succ n ih =>
    intro f d hlink hstop hle
    obtain ⟨hsym, htgt⟩ := hlink 0 (Nat.succ_pos n)
    obtain ⟨e, rfl⟩ : ∃ e, d = e + 1 := ⟨d - 1, by omega⟩
    rw [resolveLoop_step, if_pos (by simp [hsym]), htgt]
    have ih2 := ih (fun i => f (i + 1)) e (fun i hi => hlink (i + 1) (by omega)) hstop (by omega)
    have ih3 : resolveLoop env (e + 1 + 1) (f 1) = (e + 1 - n, f (n + 1)) := ih2
    rw [ih3]
    have harith : e + 1 - n = e + 1 + 1 - (n + 1) := by omega
    rw [harith]

/-- On a symlink chain of at least d + 1 hops, the loop entered with
counter d + 2 exhausts the counter after d + 1 hops. -/
theorem resolveLoop_chain_exhaust {α : Type} (env : LinkEnv α) :
    ∀ (d : Nat) (n : Nat) (f : Nat → α),
      (∀ i, i < n → env.isSymLink (f i) = true ∧ env.target (f i) = f (i + 1)) →
      d + 1 ≤ n →
      resolveLoop env (d + 2) (f 0) = (0, f (d + 1)) := by
  intro d
  induction d with
  | zero =>
    intro n f hlink hge
    obtain ⟨hsym, htgt⟩ := hlink 0 (by omega)
    rw [resolveLoop_step, if_pos (by simp [hsym]), htgt]
    rfl
  | succ d ih =>
    intro n f hlink hge
    obtain ⟨hsym, htgt⟩ := hlink 0 (by omega)
    rw [resolveLoop_step, if_pos (by simp [hsym]), htgt]
    have ih2 := ih (n - 1) (fun i => f (i + 1)) (fun i hi => hlink (i + 1) (by omega)) (by omega)
    have ih3 : resolveLoop env (d + 1 + 1) (f 1) = (0, f (d + 1 + 1)) := ih2
    rw [ih3]

/-- Characterization of the path resolver on a terminating symlink chain:
chains of at most 126 hops resolve to the final target, longer chains fall
back to the original path. -/
theorem resolvePath_chain {α : Type} (env : LinkEnv α) (f : Nat → α) (n : Nat)
    (hlink : ∀ i, i < n → env.isSymLink (f i) = true ∧ env.target (f i) = f (i + 1))
    (hstop : env.isSymLink (f n) = false) :
    resolvePath env (f 0) = if n ≤ 126 then f n else f 0 := by
  cases n with
  | zero =>
    simp [resolvePath, hstop]
  | succ n =>
    obtain ⟨hsym, _⟩ := hlink 0 (Nat.succ_pos n)
    by_cases hle : n + 1 ≤ 126
    · have h : resolveLoop env 128 (f 0) = (127 - (n + 1), f (n + 1)) :=
        resolveLoop_chain_le env (n + 1) f 126 hlink hstop (by omega)
      have hpos : 0 < 127 - (n + 1) := by omega
      rw [if_pos hle]
      unfold resolvePath
      rw [if_pos hsym, h]
      exact if_pos hpos
    · have h : resolveLoop env 128 (f 0) = (0, f 127) :=
        resolveLoop_chain_exhaust env 126 (n + 1) f hlink (by omega)
      rw [if_neg hle]
      unfold resolvePath
      rw [if_pos hsym, h]
      exact if_neg (Nat.lt_irrefl 0)

/-- C9: Calling close() directly on a save session always terminates the
program fatally, for every session state; it never yields a continuing
(finalized or otherwise) session state, so finalization can only occur
through commit() or implicit discard. -/
theorem close_always_fatal (s : SaveFile) :
    close s = .fatal ("QSaveFile::close called") ∧ ∀ s2, close s ≠ .closed s2 := by
  refine ⟨rfl, fun s2 h => ?_⟩
  simp [close] at h

/-- C10: Calling open() on a session that is already open returns false
and leaves everything unchanged: the session state (staging handle flag,
latched error, stored error state, target file name) and the filesystem
(no staging file is created). -/
theorem open_while_open_is_noop (s : SaveFile) (fs : FS) (mode : Nat) (info : DestInfo)
    (env : OpenEnv) (h : s.isOpen = true) :
    openSave s fs mode info env = (false, s, fs) := by
  simp [openSave, h]

/-- Witness for C10: a concrete already-open session. -/
theorem open_while_open_is_noop_witness :
    exOpenStaging.isOpen = true ∧
    openSave exOpenStaging exFS WriteOnly exInfoExisting exOpenEnv = (false, exOpenStaging, exFS) :=
  ⟨rfl, open_while_open_is_noop exOpenStaging exFS WriteOnly exInfoExisting exOpenEnv rfl⟩

/-- C1: Once the latched write error is set in an open staging session,
every subsequent write() call returns -1 with the session state and the
filesystem (in particular the staging file) completely untouched, and
commit() on that session returns false and leaves the destination
untouched. -/
theorem latched_write_blocks_and_commit_fails (s : SaveFile) (fs : FS) (u : UWrite)
    (c : CommitEnv) (hopen : s.isOpen = true) (heng : s.hasEngine = true)
    (hstage : s.useTemporaryFile = true) (hlatch : s.writeError ≠ .NoError) :
    writeData s fs u = (-1, s, fs) ∧
    (commit s fs c).1 = false ∧ (commit s fs c).2.2.dest = fs.dest := by
  refine ⟨?_, ?_, ?_⟩
  · simp [writeData, hlatch]
  · simp [commit, hopen, heng, hstage, hlatch]
  · simp [commit, hopen, heng, hstage, hlatch]

/-- Witness for C1: a concrete latched open staging session; the failed
underlying write is remembered, a later (would-be successful) write is
rejected without touching the staging file, and commit fails leaving the
destination as it was. -/
theorem latched_write_blocks_and_commit_fails_witness :
    exLatched.isOpen = true ∧ exLatched.hasEngine = true ∧
    exLatched.useTemporaryFile = true ∧ exLatched.writeError ≠ .NoError ∧
    (writeData exLatched exFS (.ok [7]) = (-1, exLatched, exFS) ∧
      (commit exLatched exFS exCommitOk).1 = false ∧
      (commit exLatched exFS exCommitOk).2.2.dest = exFS.dest) :=
  ⟨rfl, rfl, rfl, by decide,
    latched_write_blocks_and_commit_fails exLatched exFS (.ok [7]) exCommitOk rfl rfl rfl
      (by decide)⟩

/-- C2: Whenever commit() on an open staging-mode session returns false,
the staging file is removed and the destination is left untouched; and on
rename failure (with no latched write error) commit returns false and the
underlying engine's error kind and message are captured into the session's
error state. -/
theorem commit_failure_keeps_destination (s : SaveFile) (fs : FS) (c : CommitEnv)
    (heng : s.hasEngine = true) (hopen : s.isOpen = true)
    (hstage : s.useTemporaryFile = true) :
    ((commit s fs c).1 = false →
      (commit s fs c).2.2.staging = none ∧ (commit s fs c).2.2.dest = fs.dest) ∧
    (s.writeError = .NoError → c.renameOk = false →
      (commit s fs c).1 = false ∧ (commit s fs c).2.1.error = c.renameErr ∧
      (commit s fs c).2.1.errorString = c.renameErrStr) := by
  by_cases hw : s.writeError = .NoError
  · by_cases hr : c.renameOk = true
    · constructor
      · intro hfalse
        simp [commit, heng, hopen, hstage, hw, hr] at hfalse
      · intro _ hrf
        rw [hr] at hrf
        exact absurd hrf (by simp)
    · have hr2 : c.renameOk = false := by
        cases hrn : c.renameOk
        · rfl
        · exact absurd hrn hr
      constructor
      · intro _
        simp [commit, setError, heng, hopen, hstage, hw, hr2]
      · intro _ _
        simp [commit, setError, heng, hopen, hstage, hw, hr2]
  · constructor
    · intro _
      simp [commit, heng, hopen, hstage, hw]
    · intro hw2
      exact absurd hw2 hw

/-- Witness for C2: rename failure on a concrete healthy open staging
session discards the staging file, keeps the destination, and records the
engine's error. -/
theorem commit_failure_keeps_destination_witness :
    exOpenStaging.hasEngine = true ∧ exOpenStaging.isOpen = true ∧
    exOpenStaging.useTemporaryFile = true ∧
    (((commit exOpenStaging exFS exCommitFail).1 = false →
        (commit exOpenStaging exFS exCommitFail).2.2.staging = none ∧
        (commit exOpenStaging exFS exCommitFail).2.2.dest = exFS.dest) ∧
      (exOpenStaging.writeError = .NoError → exCommitFail.renameOk = false →
        (commit exOpenStaging exFS exCommitFail).1 = false ∧
        (commit exOpenStaging exFS exCommitFail).2.1.error = exCommitFail.renameErr ∧
        (commit exOpenStaging exFS exCommitFail).2.1.errorString = exCommitFail.renameErrStr)) :=
  ⟨rfl, rfl, rfl, commit_failure_keeps_destination exOpenStaging exFS exCommitFail rfl rfl rfl⟩

/-- C3: On an open session, cancelWriting() latches the fixed "writing
canceled by application" error; in staging mode a following commit()
returns false, leaves the destination untouched and removes the staging
file; in direct-write mode the cancellation does not take effect: commit()
still returns true and the filesystem (with the data already written to the
destination) is kept. -/
theorem cancelWriting_then_commit (s : SaveFile) (fs : FS) (c : CommitEnv)
    (hopen : s.isOpen = true) (heng : s.hasEngine = true) :
    (cancelWriting s).writeError = .WriteError ∧
    (cancelWriting s).error = .WriteError ∧
    (cancelWriting s).errorString = "Writing canceled by application" ∧
    (s.useTemporaryFile = true →
      (commit (cancelWriting s) fs c).1 = false ∧
      (commit (cancelWriting s) fs c).2.2.dest = fs.dest ∧
      (commit (cancelWriting s) fs c).2.2.staging = none) ∧
    (s.useTemporaryFile = false →
      (commit (cancelWriting s) fs c).1 = true ∧
      (commit (cancelWriting s) fs c).2.2 = fs) := by
  have hc : cancelWriting s =
      { setError s .WriteError ("Writing canceled by application") with
        writeError := .WriteError } := by
    simp [cancelWriting, hopen]
  refine ⟨by rw [hc], by rw [hc]; rfl, by rw [hc]; rfl, ?_, ?_⟩
  · intro hstage
    rw [hc]
    simp [commit, setError, heng, hopen, hstage]
  · intro hdirect
    rw [hc]
    simp [commit, setError, heng, hopen, hdirect]

/-- Witness for C3: a concrete open staging session and a concrete open
direct-write session; instantiated here with the staging one. -/
theorem cancelWriting_then_commit_witness :
    exOpenStaging.isOpen = true ∧ exOpenStaging.hasEngine = true ∧
    ((cancelWriting exOpenStaging).writeError = .WriteError ∧
      (cancelWriting exOpenStaging).error = .WriteError ∧
      (cancelWriting exOpenStaging).errorString = "Writing canceled by application" ∧
      (exOpenStaging.useTemporaryFile = true →
        (commit (cancelWriting exOpenStaging) exFS exCommitOk).1 = false ∧
        (commit (cancelWriting exOpenStaging) exFS exCommitOk).2.2.dest = exFS.dest ∧
        (commit (cancelWriting exOpenStaging) exFS exCommitOk).2.2.staging = none) ∧
      (exOpenStaging.useTemporaryFile = false →
        (commit (cancelWriting exOpenStaging) exFS exCommitOk).1 = true ∧
        (commit (cancelWriting exOpenStaging) exFS exCommitOk).2.2 = exFS)) :=
  ⟨rfl, rfl, cancelWriting_then_commit exOpenStaging exFS exCommitOk rfl rfl⟩

/-- C4 counterexample: the claim that no commit() call within the session's
lifetime resets the latch to the no-error state is false: on an open
staging session with the latch set, commit() (lines 306-311 of
qsavefile.cpp) resets writeError to NoError while discarding the staging
file. -/
theorem commit_resets_latch_cex :
    exLatched.writeError ≠ .NoError ∧
    (commit exLatched exFS exCommitOk).2.1.writeError = .NoError := by
  constructor
  · decide
  · decide

/-- C4 amended: once the latched write error is set, neither write() nor
cancelWriting() ever clears it, and the only operation besides a fresh
open() that resets it to NoError is a commit() that finalizes an open
staging-mode session, which clears the latch exactly when it discards the
staging file, returns false, and ends the open state. -/
theorem latch_cleared_only_by_discarding_commit (s : SaveFile) (fs : FS) (u : UWrite)
    (c : CommitEnv) (hlatch : s.writeError ≠ .NoError) :
    (writeData s fs u).2.1.writeError = s.writeError ∧
    (cancelWriting s).writeError ≠ .NoError ∧
    ((commit s fs c).2.1.writeError = .NoError →
      s.useTemporaryFile = true ∧ s.isOpen = true ∧ s.hasEngine = true ∧
      (commit s fs c).1 = false ∧ (commit s fs c).2.1.isOpen = false ∧
      (commit s fs c).2.2.staging = none) := by
  refine ⟨?_, ?_, ?_⟩
  · simp [writeData, hlatch]
  · by_cases hopen : s.isOpen = true
    · simp [cancelWriting, setError, hopen]
    · have : s.isOpen = false := by
        cases ho : s.isOpen
        · rfl
        · exact absurd ho hopen
      simp [cancelWriting, this, hlatch]
  · intro hclear
    by_cases heng : s.hasEngine = true
    · by_cases hopen : s.isOpen = true
      · by_cases hstage : s.useTemporaryFile = true
        · refine ⟨hstage, hopen, heng, ?_, ?_, ?_⟩
          · simp [commit, heng, hopen, hstage, hlatch]
          · simp [commit, heng, hopen, hstage, hlatch]
          · simp [commit, heng, hopen, hstage, hlatch]
        · have hd : s.useTemporaryFile = false := by
            cases ht : s.useTemporaryFile
            · rfl
            · exact absurd ht hstage
          simp [commit, heng, hopen, hd] at hclear
          exact absurd hclear hlatch
      · have ho : s.isOpen = false := by
          cases ho2 : s.isOpen
          · rfl
          · exact absurd ho2 hopen
        simp [commit, heng, ho] at hclear
        exact absurd hclear hlatch
    · have he : s.hasEngine = false := by
        cases he2 : s.hasEngine
        · rfl
        · exact absurd he2 heng
      simp [commit, he] at hclear
      exact absurd hclear hlatch

/-- Witness for C4 (amended): the concrete latched open staging session. -/
theorem latch_cleared_only_by_discarding_commit_witness :
    exLatched.writeError ≠ .NoError ∧
    ((writeData exLatched exFS (.ok [7])).2.1.writeError = exLatched.writeError ∧
      (cancelWriting exLatched).writeError ≠ .NoError ∧
      ((commit exLatched exFS exCommitOk).2.1.writeError = .NoError →
        exLatched.useTemporaryFile = true ∧ exLatched.isOpen = true ∧
        exLatched.hasEngine = true ∧ (commit exLatched exFS exCommitOk).1 = false ∧
        (commit exLatched exFS exCommitOk).2.1.isOpen = false ∧
        (commit exLatched exFS exCommitOk).2.2.staging = none)) :=
  ⟨by decide,
    latch_cleared_only_by_discarding_commit exLatched exFS (.ok [7]) exCommitOk (by decide)⟩

/-- C5: For a target path that exists and is a directory, or exists and is
not writable, an otherwise well-formed open() fails with error kind
WriteError, returns false, and leaves the filesystem untouched (no staging
file is created, the destination keeps its state). -/
theorem open_rejects_directory_or_unwritable (s : SaveFile) (fs : FS) (mode : Nat)
    (info : DestInfo) (env : OpenEnv) (hnot : s.isOpen = false)
    (hm1 : mode &&& (ReadOnly ||| WriteOnly) ≠ 0)
    (hm2 : mode &&& (ReadOnly ||| Append ||| NewOnly ||| ExistingOnly) = 0)
    (hex : info.fexists = true)
    (hbad : info.isDir = true ∨ info.isWritable = false) :
    (openSave s fs mode info env).1 = false ∧
    (openSave s fs mode info env).2.1.error = .WriteError ∧
    (openSave s fs mode info env).2.2 = fs := by
  by_cases hwr : info.isWritable = true
  · have hdir : info.isDir = true := by
      rcases hbad with h | h
      · exact h
      · rw [h] at hwr
        exact absurd hwr (by simp)
    simp [openSave, unsetError, setError, hnot, hm1, hm2, hex, hwr, hdir]
  · have hwf : info.isWritable = false := by
      cases hw2 : info.isWritable
      · rfl
      · exact absurd hw2 hwr
    simp [openSave, unsetError, setError, hnot, hm1, hm2, hex, hwf]

/-- Witness for C5: opening over a writable directory with a plain
WriteOnly mode on a fresh session. -/
theorem open_rejects_directory_or_unwritable_witness :
    exClosed.isOpen = false ∧
    WriteOnly &&& (ReadOnly ||| WriteOnly) ≠ 0 ∧
    WriteOnly &&& (ReadOnly ||| Append ||| NewOnly ||| ExistingOnly) = 0 ∧
    exInfoDir.fexists = true ∧
    (exInfoDir.isDir = true ∨ exInfoDir.isWritable = false) ∧
    ((openSave exClosed exFSEmpty WriteOnly exInfoDir exOpenEnv).1 = false ∧
      (openSave exClosed exFSEmpty WriteOnly exInfoDir exOpenEnv).2.1.error = .WriteError ∧
      (openSave exClosed exFSEmpty WriteOnly exInfoDir exOpenEnv).2.2 = exFSEmpty) :=
  ⟨rfl, by decide, by decide, rfl, Or.inl rfl,
    open_rejects_directory_or_unwritable exClosed exFSEmpty WriteOnly exInfoDir exOpenEnv rfl
      (by decide) (by decide) rfl (Or.inl rfl)⟩

/-- C6 counterexample: the claim that an unsupported open mode is rejected
with error kind OpenError is false: open() with a ReadOnly mode on a fresh
session returns false but records no error at all — the error state ends
as NoError (lines 164-175 of qsavefile.cpp only emit a qWarning). -/
theorem open_mode_rejection_no_openerror_cex :
    (openSave exClosed exFSEmpty ReadOnly exInfoExisting exOpenEnv).1 = false ∧
    (openSave exClosed exFSEmpty ReadOnly exInfoExisting exOpenEnv).2.1.error = .NoError ∧
    (openSave exClosed exFSEmpty ReadOnly exInfoExisting exOpenEnv).2.1.error ≠ .OpenError := by
  refine ⟨by decide, by decide, by decide⟩

/-- C6 amended: for every open mode that lacks write-intent, or includes
read-only, append, create-new-only, or open-existing-only flags, open()
rejects the mode and returns false, logging a warning only: no staging
file is created, and the session's error state is left cleared (NoError
with an empty message) rather than set to OpenError. -/
theorem open_mode_rejected_without_error_code (s : SaveFile) (fs : FS) (mode : Nat)
    (info : DestInfo) (env : OpenEnv) (hnot : s.isOpen = false)
    (hm : mode &&& (ReadOnly ||| WriteOnly) = 0 ∨
      mode &&& (ReadOnly ||| Append ||| NewOnly ||| ExistingOnly) ≠ 0) :
    (openSave s fs mode info env).1 = false ∧
    (openSave s fs mode info env).2.1.error = .NoError ∧
    (openSave s fs mode info env).2.1.errorString = "" ∧
    (openSave s fs mode info env).2.2 = fs := by
  rcases hm with hm | hm
  · simp [openSave, unsetError, hnot, hm]
  · by_cases h1 : mode &&& (ReadOnly ||| WriteOnly) = 0
    · simp [openSave, unsetError, hnot, h1]
    · simp [openSave, unsetError, hnot, h1, hm]

/-- Witness for C6 (amended): ReadOnly mode on a fresh session. -/
theorem open_mode_rejected_without_error_code_witness :
    exClosed.isOpen = false ∧
    (ReadOnly &&& (ReadOnly ||| WriteOnly) = 0 ∨
      ReadOnly &&& (ReadOnly ||| Append ||| NewOnly ||| ExistingOnly) ≠ 0) ∧
    ((openSave exClosed exFSEmpty ReadOnly exInfoExisting exOpenEnv).1 = false ∧
      (openSave exClosed exFSEmpty ReadOnly exInfoExisting exOpenEnv).2.1.error = .NoError ∧
      (openSave exClosed exFSEmpty ReadOnly exInfoExisting exOpenEnv).2.1.errorString = "" ∧
      (openSave exClosed exFSEmpty ReadOnly exInfoExisting exOpenEnv).2.2 = exFSEmpty) :=
  ⟨rfl, Or.inr (by decide),
    open_mode_rejected_without_error_code exClosed exFSEmpty ReadOnly exInfoExisting exOpenEnv rfl
      (Or.inr (by decide))⟩

/-- C7: The staging file is created with default permission bits 0600 when
a destination file exists and 0666 (before umask) when none does; when a
destination with bits P exists, a successful open() copies P onto the
staging file; write() never changes the staging file's permission bits;
and a successful commit() carries those bits onto the destination, so the
new destination's permission bits equal P. -/
theorem staging_permission_defaults_and_mirroring (s : SaveFile) (fs : FS) (mode : Nat)
    (info : DestInfo) (env : OpenEnv) (s2 : SaveFile) (fs2 : FS) (u : UWrite) (c : CommitEnv)
    (hnot : s.isOpen = false)
    (hm1 : mode &&& (ReadOnly ||| WriteOnly) ≠ 0)
    (hm2 : mode &&& (ReadOnly ||| Append ||| NewOnly ||| ExistingOnly) = 0)
    (hwr : info.isWritable = true) (hdir : info.isDir = false)
    (hrdw : env.requiresDirectWrite = false) (htmp : env.tempOpenOk = true) :
    (stagingCreate true).perms = 0o600 ∧
    (stagingCreate false).perms = 0o666 ∧
    (openSave s fs mode info env).1 = true ∧
    (openSave s fs mode info env).2.2.staging =
      some { content := [], perms := if info.fexists then info.perms else 0o666 } ∧
    (writeData s2 fs2 u).2.2.staging.map FileData.perms = fs2.staging.map FileData.perms ∧
    (info.fexists = true → c.renameOk = true →
      (commit (openSave s fs mode info env).2.1 (openSave s fs mode info env).2.2 c).1 = true ∧
      ((commit (openSave s fs mode info env).2.1 (openSave s fs mode info env).2.2 c).2.2.dest).map
          FileData.perms = some info.perms) := by
  refine ⟨by decide, by decide, ?_, ?_, ?_, ?_⟩
  · cases hfe : info.fexists
    · simp [openSave, unsetError, hnot, hm1, hm2, hwr, hdir, hrdw, htmp, hfe]
    · simp [openSave, unsetError, hnot, hm1, hm2, hwr, hdir, hrdw, htmp, hfe]
  · cases hfe : info.fexists
    · simp [openSave, unsetError, stagingCreate, hnot, hm1, hm2, hwr, hdir, hrdw, htmp, hfe]
    · simp [openSave, unsetError, stagingCreate, hnot, hm1, hm2, hwr, hdir, hrdw, htmp, hfe]
  · by_cases hl : s2.writeError = .NoError
    · cases u with
      | ok w =>
        cases hstg : s2.useTemporaryFile
        · simp [writeData, appendHandle, hl, hstg]
        · cases hsv : fs2.staging
          · simp [writeData, appendHandle, hl, hstg, hsv]
          · simp [writeData, appendHandle, hl, hstg, hsv]
      | fail e msg =>
        simp [writeData, setError, hl]
    · simp [writeData, hl]
  · intro hfe hrok
    constructor
    · simp [openSave, commit, unsetError, hnot, hm1, hm2, hwr, hdir, hrdw, htmp, hfe, hrok]
    · simp [openSave, commit, unsetError, hnot, hm1, hm2, hwr, hdir, hrdw, htmp, hfe, hrok]

/-- Witness for C7: a fresh session saving over an existing writable file
with permission bits 0640. -/
theorem staging_permission_defaults_and_mirroring_witness :
    exClosed.isOpen = false ∧
    WriteOnly &&& (ReadOnly ||| WriteOnly) ≠ 0 ∧
    WriteOnly &&& (ReadOnly ||| Append ||| NewOnly ||| ExistingOnly) = 0 ∧
    exInfoExisting.isWritable = true ∧ exInfoExisting.isDir = false ∧
    exOpenEnv.requiresDirectWrite = false ∧ exOpenEnv.tempOpenOk = true ∧
    ((stagingCreate true).perms = 0o600 ∧
      (stagingCreate false).perms = 0o666 ∧
      (openSave exClosed exFS WriteOnly exInfoExisting exOpenEnv).1 = true ∧
      (openSave exClosed exFS WriteOnly exInfoExisting exOpenEnv).2.2.staging =
        some { content := [], perms := if exInfoExisting.fexists then exInfoExisting.perms
                                       else 0o666 } ∧
      (writeData exOpenStaging exFS (.ok [7])).2.2.staging.map FileData.perms =
        exFS.staging.map FileData.perms ∧
      (exInfoExisting.fexists = true → exCommitOk.renameOk = true →
        (commit (openSave exClosed exFS WriteOnly exInfoExisting exOpenEnv).2.1
          (openSave exClosed exFS WriteOnly exInfoExisting exOpenEnv).2.2 exCommitOk).1 = true ∧
        ((commit (openSave exClosed exFS WriteOnly exInfoExisting exOpenEnv).2.1
          (openSave exClosed exFS WriteOnly exInfoExisting exOpenEnv).2.2
          exCommitOk).2.2.dest).map FileData.perms = some exInfoExisting.perms)) :=
  ⟨rfl, by decide, by decide, rfl, rfl, rfl, rfl,
    staging_permission_defaults_and_mirroring exClosed exFS WriteOnly exInfoExisting exOpenEnv
      exOpenStaging exFS (.ok [7]) exCommitOk rfl (by decide) (by decide) rfl rfl rfl rfl⟩

/-- C8 counterexample: the claim that any symlink chain terminating within
128 hops is resolved to its final target is false: on a chain of exactly
127 hops (paths 0 → 1 → ... → 127, path 127 regular), the loop's counter
is exhausted and resolvePath falls back to the original path 0 instead of
the final target 127. -/
theorem symlink_chain_127_falls_back_cex :
    (List.range 127).all
        (fun i => chainEnv.isSymLink i && (chainEnv.target i == i + 1)) = true ∧
    chainEnv.isSymLink 127 = false ∧
    resolvePath chainEnv 0 = 0 ∧
    (0 : Nat) ≠ 127 := by
  refine ⟨by decide, by decide, by decide, by decide⟩

/-- C8 amended: path resolution always terminates; the loop counter starts
at 128 and is decremented before each symlink test, so a terminating chain
of at most 126 hops is resolved to its final target, while a chain needing
127 or more hops exhausts the bound and the resolved path falls back to
the original target path; a target path that does not exist (hence is not
a symlink) is returned unmodified. -/
theorem resolvePath_bounded_resolution {α : Type} (env : LinkEnv α) (f : Nat → α) (n : Nat)
    (p : α)
    (hlink : ∀ i, i < n → env.isSymLink (f i) = true ∧ env.target (f i) = f (i + 1))
    (hstop : env.isSymLink (f n) = false)
    (hcoh : ∀ q, env.isSymLink q = true → env.fexists q = true)
    (hnex : env.fexists p = false) :
    resolvePath env (f 0) = (if n ≤ 126 then f n else f 0) ∧ resolvePath env p = p := by
  refine ⟨resolvePath_chain env f n hlink hstop, ?_⟩
  have hsl : env.isSymLink p = false := by
    cases hq : env.isSymLink p
    · rfl
    · rw [hcoh p hq] at hnex
      exact absurd hnex (by simp)
  simp [resolvePath, hsl]

/-- Witness for C8 (amended): a 2-hop chain 0 → 1 → 2 resolves to 2, and
the nonexistent path 5 is returned unmodified. -/
theorem resolvePath_bounded_resolution_witness :
    (∀ i, i < 2 → shortChainEnv.isSymLink i = true ∧ shortChainEnv.target i = i + 1) ∧
    shortChainEnv.isSymLink 2 = false ∧
    (∀ q, shortChainEnv.isSymLink q = true → shortChainEnv.fexists q = true) ∧
    shortChainEnv.fexists 5 = false ∧
    (resolvePath shortChainEnv 0 = (if 2 ≤ 126 then 2 else 0) ∧
      resolvePath shortChainEnv 5 = 5) :=
  ⟨by decide, by decide,
    fun q hq => by
      simp [shortChainEnv] at hq ⊢
      omega,
    by decide,
    resolvePath_bounded_resolution shortChainEnv (fun k => k) 2 5 (by decide) (by decide)
      (fun q hq => by
        simp [shortChainEnv] at hq ⊢
        omega)
      (by decide)⟩

end QSaveFile
